import Mathlib

/-!
Shallow embedding of the MadereiraJD receipt ("romaneio") application, as
implemented in `apps/romaneio/views.py`, `apps/romaneio/urls.py` and
`apps/financeiro/forms.py`, together with the parts of the data model the
views invoke.  Monetary and volume quantities (Django `Decimal`) are
modelled as `Rat`; database querysets are lists; bound Django forms are
records carrying their cleaned data together with a validity flag.
-/

namespace MadereiraJD

/-- A single measured sub-volume belonging to one item (model `UnidadeRomaneio`). -/
structure Unidade where
  volume : Rat
  deriving Repr, DecidableEq, Inhabited

/-- A receipt line item (model `ItemRomaneio`): holds the directly entered
volume (used in SIMPLES mode), a unit price, its persisted child units and
its persisted derived totals. -/
structure Item where
  quantidade_m3_total : Rat
  preco_unitario : Rat
  unidades : List Unidade
  m3_total : Rat
  valor_total : Rat
  deriving Repr, DecidableEq, Inhabited

/-- A receipt (model `Romaneio`).  `modalidade` is the raw choice string
("SIMPLES" or "DETALHADO"), `tipo_romaneio` is "NORMAL" or "COM_FRETE",
exactly as the views compare them. -/
structure Romaneio where
  numero_romaneio : String
  cliente_id : Nat
  modalidade : String
  tipo_romaneio : String
  data_month : Nat
  data_year : Nat
  desconto : Rat
  m3_total : Rat
  valor_bruto : Rat
  valor_total : Rat
  itens : List Item
  deriving Repr, DecidableEq

/-- A wood type (model `TipoMadeira`). -/
structure TipoMadeira where
  id : Nat
  nome : String
  preco_normal : Rat
  preco_com_frete : Rat
  ativo : Bool
  deriving Repr, DecidableEq

/-- Modelled from the spec: `TipoMadeira.get_preco` is not under `src/`
(`apps/cadastros/models.py` is absent); per the spec the price endpoint
"for a known id returns the price matching the requested category
(NORMAL vs WITH_FREIGHT)". -/
def TipoMadeira.get_preco (tm : TipoMadeira) (tipo_romaneio : String) : Rat :=
  if tipo_romaneio = "COM_FRETE" then tm.preco_com_frete else tm.preco_normal

/-- Modelled from the spec: `ItemRomaneio.atualizar_totais` is not under
`src/`.  Per the spec (and the docstring of
`_recalcular_totais_apos_salvar` in `views.py`): SIMPLES uses the entered
`quantidade_m3_total`, DETALHADO sums the item's units; the item's value is
its volume at its unit price. -/
def Item.atualizar_totais (modalidade : String) (it : Item) : Item :=
  let m3 := if modalidade = "DETALHADO"
    then (it.unidades.map (·.volume)).sum
    else it.quantidade_m3_total
  { it with m3_total := m3, valor_total := m3 * it.preco_unitario }

/-- Modelled from the spec: `Romaneio.atualizar_totais` is not under
`src/`.  Per the spec, the receipt's "aggregate volume and value fields"
are recomputed "as the sum over its current items"; the final total also
applies the receipt's discount. -/
def Romaneio.atualizar_totais (r : Romaneio) : Romaneio :=
  { r with
      m3_total := (r.itens.map (·.m3_total)).sum
      valor_bruto := (r.itens.map (·.valor_total)).sum
      valor_total := (r.itens.map (·.valor_total)).sum - r.desconto }

/-- Embeds `_RomaneioSaveMixin._recalcular_totais_apos_salvar`: walk the
receipt's items calling `atualizar_totais` on each, then recompute the
receipt-level aggregates. -/
def recalcular_totais_apos_salvar (r : Romaneio) : Romaneio :=
  Romaneio.atualizar_totais
    { r with itens := r.itens.map (Item.atualizar_totais r.modalidade) }

/-! ## List view (`RomaneioListView.get_queryset`) -/

/-- Query parameters of the list endpoint (`request.GET`); `none` means the
parameter is absent. -/
structure ListParams where
  mes : Option String
  ano : Option String
  cliente : Option String
  numero : Option String
  modalidade : Option String
  deriving Repr, DecidableEq

/-- Python truthiness of an optional GET parameter: present and non-empty. -/
def truthy : Option String → Bool
  | none => false
  | some s => !(s == "")

/-- Digit value of a character, when it is a decimal digit. -/
def char_digit (c : Char) : Option Nat :=
  if '0' ≤ c ∧ c ≤ '9' then some (c.toNat - 48) else none

/-- Accumulates a decimal number over a character list, failing on the
first non-digit. -/
def parse_nat_aux : Nat → List Char → Option Nat
  | acc, [] => some acc
  | acc, c :: cs =>
      match char_digit c with
      | none => none
      | some d => parse_nat_aux (acc * 10 + d) cs

/-- Embeds Python's `int(str)` (an optional sign followed by decimal
digits; anything else raises `ValueError`, here `none`). -/
def to_int_py (s : String) : Option Int :=
  match s.data with
  | [] => none
  | '-' :: cs =>
      if cs.isEmpty then none
      else (parse_nat_aux 0 cs).map (fun n => -(n : Int))
  | cs => (parse_nat_aux 0 cs).map (fun n => (n : Int))

/-- Case-insensitive substring test, embedding Django's `icontains`. -/
def icontains (hay pat : String) : Bool :=
  if pat.isEmpty then true
  else (hay.toLower.splitOn pat.toLower).length > 1

/-- Embeds `RomaneioListView.get_queryset` (ordering and pagination, pure
presentation, are omitted).  When `mes` and `ano` are both truthy the view
tries `int(...)` on both inside a `try`, swallowing parse failures
(`except: pass`); otherwise it filters to the current month/year. -/
def get_queryset (db : List Romaneio) (p : ListParams)
    (nowMonth nowYear : Nat) : List Romaneio :=
  let qs := db
  let qs :=
    if truthy p.mes && truthy p.ano then
      match to_int_py (p.mes.getD ""), to_int_py (p.ano.getD "") with
      | some m, some a =>
          qs.filter (fun r => ((r.data_month : Int) == m) && ((r.data_year : Int) == a))
      | _, _ => qs
    else
      qs.filter (fun r => (r.data_month == nowMonth) && (r.data_year == nowYear))
  let qs := if truthy p.cliente then
      qs.filter (fun r => toString r.cliente_id == p.cliente.getD "") else qs
  let qs := if truthy p.numero then
      qs.filter (fun r => icontains r.numero_romaneio (p.numero.getD "")) else qs
  let qs := if truthy p.modalidade then
      qs.filter (fun r => r.modalidade == p.modalidade.getD "") else qs
  qs

/-! ## Price endpoint (`get_preco_madeira`) -/

/-- Shape of the `JsonResponse` returned by `get_preco_madeira`. -/
structure ApiResponse where
  success : Bool
  preco : Option Rat
  error : Option String
  status : Nat
  deriving Repr, DecidableEq

/-- Embeds the view `get_preco_madeira`: look the wood type up by id
(`TipoMadeira.objects.get`); a missing row raises `DoesNotExist`, handled
as a 404; any other failure (here: an unparseable id string) falls into
the generic `except Exception` branch, handled as a 500.  An absent or
`None` id yields an `IS NULL` lookup, which matches no row (404). -/
def get_preco_madeira (db : List TipoMadeira) (tipo_madeira_id : Option String)
    (tipo_romaneio : String) : ApiResponse :=
  match tipo_madeira_id with
  | none =>
      { success := false, preco := none,
        error := some "Tipo de madeira não encontrado", status := 404 }
  | some s =>
      match to_int_py s with
      | none =>
          { success := false, preco := none,
            error := some ("Field id expected a number but got " ++ s), status := 500 }
      | some n =>
          match db.find? (fun tm => (tm.id : Int) == n) with
          | none =>
              { success := false, preco := none,
                error := some "Tipo de madeira não encontrado", status := 404 }
          | some tm =>
              { success := true, preco := some (tm.get_preco tipo_romaneio),
                error := none, status := 200 }

/-! ## Nested form submission (`_RomaneioSaveMixin`, create and update views)

A bound unit form carries its validity flag, its cleaned `DELETE` flag and
its cleaned volume; a bound item form likewise carries its cleaned fields
plus, on update, the child units the corresponding database item already
has.  A formset is valid when each of its bound rows is valid; the
business rule "each DETALHADO item needs at least one unit" lives in the
view mixin, not in the formsets (the romaneio formset definitions are not
under `src/`; the spec describes their validity as per-row field
validation). -/

/-- A bound row of a `UnidadeRomaneioFormSet`. -/
structure UnidadeForm where
  valid : Bool
  delete : Bool
  volume : Rat
  deriving Repr, DecidableEq

/-- A bound `UnidadeRomaneioFormSet` (one per item row, with a stable
per-index POST namespace) together with its formset-level error list. -/
structure UnidadeFormSet where
  forms : List UnidadeForm
  non_form_errors : List String
  deriving Repr, DecidableEq, Inhabited

/-- Formset validity: every bound row validates. -/
def UnidadeFormSet.is_valid (uf : UnidadeFormSet) : Bool :=
  uf.forms.all (·.valid)

/-- A bound row of the `ItemRomaneioFormSet`.  `instance_unidades` are the
child units already persisted for the row's instance (empty on create). -/
structure ItemForm where
  valid : Bool
  delete : Bool
  quantidade_m3_total : Rat
  preco_unitario : Rat
  instance_unidades : List Unidade
  deriving Repr, DecidableEq

/-- A receipt submission (POST): the bound main form's validity flag and
cleaned header fields, the bound item formset and the per-item unit
formsets (indexed like the item rows). -/
structure SubmitRequest where
  form_valid : Bool
  modalidade : String
  numero_romaneio : String
  cliente_id : Nat
  tipo_romaneio : String
  data_month : Nat
  data_year : Nat
  desconto : Rat
  item_forms : List ItemForm
  unidade_formsets : List UnidadeFormSet
  deriving Repr, DecidableEq

/-- Embeds `_RomaneioSaveMixin._is_detalhado`: the form validated and its
cleaned `modalidade` is "DETALHADO". -/
def is_detalhado (req : SubmitRequest) : Bool :=
  req.form_valid && req.modalidade == "DETALHADO"

/-- The error message appended by `_validate_detalhado_requires_units`. -/
def requires_units_msg : String :=
  "No modo DETALHADO, cada tipo de madeira deve ter pelo menos uma unidade."

/-- Number of valid, non-deleted unit rows of a unit formset (the count
taken in `_validate_detalhado_requires_units`). -/
def valid_units (uf : UnidadeFormSet) : Nat :=
  (uf.forms.filter (fun f => f.valid && !f.delete)).length

/-- Embeds `_RomaneioSaveMixin._validate_detalhado_requires_units`: in
DETALHADO mode every unit formset must have at least one valid non-deleted
row; offenders get the message appended to their `non_form_errors`.
Returns the (possibly annotated) formsets and the overall verdict. -/
def validate_detalhado_requires_units (detalhado : Bool)
    (ufs : List UnidadeFormSet) : List UnidadeFormSet × Bool :=
  if !detalhado then (ufs, true)
  else
    (ufs.map (fun uf =>
        if valid_units uf == 0 then
          { uf with non_form_errors := uf.non_form_errors ++ [requires_units_msg] }
        else uf),
     ufs.all (fun uf => valid_units uf != 0))

/-- Items produced by `formset.save()` on create: every valid, non-deleted
row becomes a fresh item with no child units and zeroed derived totals. -/
def save_itens_create (forms : List ItemForm) : List Item :=
  (forms.filter (fun f => f.valid && !f.delete)).map (fun f =>
    { quantidade_m3_total := f.quantidade_m3_total
      preco_unitario := f.preco_unitario
      unidades := []
      m3_total := 0
      valor_total := 0 })

/-- Items produced by `formset.save()` on update: every valid, non-deleted
row persists its cleaned fields onto its instance, which keeps whatever
child units it already had; deleted rows are removed. -/
def save_itens_update (forms : List ItemForm) : List Item :=
  (forms.filter (fun f => f.valid && !f.delete)).map (fun f =>
    { quantidade_m3_total := f.quantidade_m3_total
      preco_unitario := f.preco_unitario
      unidades := f.instance_unidades
      m3_total := 0
      valor_total := 0 })

/-- Embeds `_RomaneioSaveMixin._save_unidades_for_itens`: nothing happens
unless the POSTed `modalidade` is "DETALHADO"; otherwise each saved item is
paired with the unit formset of its index, and a valid formset's save
replaces the item's units with its non-deleted rows (deleted rows are
removed); an invalid formset is silently skipped. -/
def save_unidades_for_itens (modalidade : String)
    (ufs : List UnidadeFormSet) (itens : List Item) : List Item :=
  if modalidade != "DETALHADO" then itens
  else
    itens.enum.map (fun pr =>
      match ufs[pr.1]? with
      | none => pr.2
      | some uf =>
          if uf.is_valid then
            { pr.2 with
                unidades := (uf.forms.filter (fun f => f.valid && !f.delete)).map
                  (fun f => { volume := f.volume }) }
          else pr.2)

/-- The header record written by `form.save(commit=False)` on create. -/
def header_romaneio (req : SubmitRequest) : Romaneio :=
  { numero_romaneio := req.numero_romaneio
    cliente_id := req.cliente_id
    modalidade := req.modalidade
    tipo_romaneio := req.tipo_romaneio
    data_month := req.data_month
    data_year := req.data_year
    desconto := req.desconto
    m3_total := 0
    valor_bruto := 0
    valor_total := 0
    itens := [] }

/-- The header fields written by `form.save()` on update: the cleaned
fields land on the existing instance. -/
def update_header (r0 : Romaneio) (req : SubmitRequest) : Romaneio :=
  { r0 with
      numero_romaneio := req.numero_romaneio
      cliente_id := req.cliente_id
      modalidade := req.modalidade
      tipo_romaneio := req.tipo_romaneio
      data_month := req.data_month
      data_year := req.data_year
      desconto := req.desconto }

/-- The receipt state produced by a successful create: header save, item
formset save, unit formset saves, then total recalculation. -/
def create_full_save (req : SubmitRequest) : Romaneio :=
  recalcular_totais_apos_salvar
    { header_romaneio req with
        itens := save_unidades_for_itens req.modalidade req.unidade_formsets
          (save_itens_create req.item_forms) }

/-- The receipt state produced by a successful update. -/
def update_full_save (r0 : Romaneio) (req : SubmitRequest) : Romaneio :=
  recalcular_totais_apos_salvar
    { update_header r0 req with
        itens := save_unidades_for_itens req.modalidade req.unidade_formsets
          (save_itens_update req.item_forms) }

/-- The unit formsets as they stand after the create view's validation
phase (the `checked` pair's first component): annotated by
`_validate_detalhado_requires_units` exactly when the mode is DETALHADO
and every unit formset was itself valid. -/
def create_checked_formsets (req : SubmitRequest) : List UnidadeFormSet :=
  if is_detalhado req then
    (if req.unidade_formsets.all UnidadeFormSet.is_valid then
      (validate_detalhado_requires_units true req.unidade_formsets).1
    else req.unidade_formsets)
  else req.unidade_formsets

/-- Result of a POST to the create view: either the form page re-rendered
with the (possibly annotated) unit formsets, or a saved receipt. -/
inductive CreatePostResult where
  | rendered (ufs : List UnidadeFormSet)
  | saved (r : Romaneio)
  deriving Repr, DecidableEq

/-- Embeds `RomaneioCreateView.post`: validate the main form, the item
formset and — only in DETALHADO mode — every unit formset plus the
at-least-one-unit business rule (short-circuited, as in the Python `and`,
when some unit formset is itself invalid); on any failure re-render, else
save everything and recalculate. -/
def create_post (req : SubmitRequest) : CreatePostResult :=
  let form_valid := req.form_valid
  let formset_valid := req.item_forms.all (·.valid)
  let checked :=
    if is_detalhado req then
      if req.unidade_formsets.all UnidadeFormSet.is_valid then
        validate_detalhado_requires_units true req.unidade_formsets
      else (req.unidade_formsets, false)
    else (req.unidade_formsets, true)
  if !(form_valid && formset_valid && checked.2) then
    .rendered checked.1
  else
    .saved (create_full_save req)

/-- Result of a POST to the update view: either the form page re-rendered —
the persisted receipt `r` unchanged — or the receipt saved anew. -/
inductive UpdatePostResult where
  | rendered (r : Romaneio) (ufs : List UnidadeFormSet)
  | saved (r : Romaneio)
  deriving Repr, DecidableEq

/-- Embeds `RomaneioUpdateView.post`: validate the main form, the item
formset and — only in DETALHADO mode — every unit formset.  Unlike the
create view, it never calls `_validate_detalhado_requires_units`.  On any
failure re-render with the instance unchanged, else save and recalculate. -/
def update_post (r0 : Romaneio) (req : SubmitRequest) : UpdatePostResult :=
  let form_valid := req.form_valid
  let formset_valid := req.item_forms.all (·.valid)
  let unidades_valid :=
    if is_detalhado req then req.unidade_formsets.all UnidadeFormSet.is_valid
    else true
  if !(form_valid && formset_valid && unidades_valid) then
    .rendered r0 req.unidade_formsets
  else
    .saved (update_full_save r0 req)

/-- The overall validation verdict of `RomaneioCreateView.post` (the value
of `form_valid and formset_valid and unidades_valid` there): main form,
item formset, and — in DETALHADO mode — every unit formset plus the
at-least-one-unit rule. -/
def create_validation_ok (req : SubmitRequest) : Bool :=
  req.form_valid && req.item_forms.all (·.valid) &&
    (if is_detalhado req then
      req.unidade_formsets.all UnidadeFormSet.is_valid &&
        (validate_detalhado_requires_units true req.unidade_formsets).2
    else true)

/-- The overall validation verdict of `RomaneioUpdateView.post`: identical
to the create view's except that `_validate_detalhado_requires_units` is
never consulted. -/
def update_validation_ok (req : SubmitRequest) : Bool :=
  req.form_valid && req.item_forms.all (·.valid) &&
    (if is_detalhado req then req.unidade_formsets.all UnidadeFormSet.is_valid
    else true)

/-! ## Transactional save (`@transaction.atomic`)

Both `post` handlers run under `@transaction.atomic`.  We embed each
persisted write of the handler body as one step on the database state
(`Option Romaneio`: the receipt being created/edited, `none` when absent),
and model the decorator by running the steps once, in order, over a working
state; an exception at any step (injected through the failure oracle
`fails`) rolls the whole transaction back to the original state. -/

/-- The writes of `RomaneioCreateView.post`, in program order:
`self.object.save()`, `formset.save()`, `_save_unidades_for_itens`,
`_recalcular_totais_apos_salvar`. -/
def create_writes (req : SubmitRequest) : List (Option Romaneio → Option Romaneio) :=
  [fun _ => some (header_romaneio req),
   fun db => db.map (fun r => { r with itens := save_itens_create req.item_forms }),
   fun db => db.map (fun r =>
     { r with itens := save_unidades_for_itens req.modalidade req.unidade_formsets r.itens }),
   fun db => db.map recalcular_totais_apos_salvar]

/-- The writes of `RomaneioUpdateView.post`, in program order:
`form.save()`, `formset.save()`, `_save_unidades_for_itens`,
`_recalcular_totais_apos_salvar`. -/
def update_writes (r0 : Romaneio) (req : SubmitRequest) :
    List (Option Romaneio → Option Romaneio) :=
  [fun _ => some (update_header r0 req),
   fun db => db.map (fun r => { r with itens := save_itens_update req.item_forms }),
   fun db => db.map (fun r =>
     { r with itens := save_unidades_for_itens req.modalidade req.unidade_formsets r.itens }),
   fun db => db.map recalcular_totais_apos_salvar]

/-- Runs the writes once, in order; `fails i` injects a database failure at
step `i`, aborting the transaction (`none`). -/
def run_writes (fails : Nat → Bool) :
    Option Romaneio → Nat → List (Option Romaneio → Option Romaneio) →
    Option (Option Romaneio)
  | cur, _, [] => some cur
  | cur, i, w :: ws =>
      if fails i then none else run_writes fails (w cur) (i + 1) ws

/-- Semantics of `transaction.atomic`: commit the working state only when
every write succeeded, otherwise keep the original state. -/
def run_atomic (db : Option Romaneio)
    (writes : List (Option Romaneio → Option Romaneio))
    (fails : Nat → Bool) : Option Romaneio :=
  match run_writes fails db 0 writes with
  | none => db
  | some db2 => db2

/-- The writes the create handler issues on a POST: none at all unless all
three validation layers passed (the guard precedes every write in the
handler body). -/
def create_post_writes (req : SubmitRequest) :
    List (Option Romaneio → Option Romaneio) :=
  if create_validation_ok req then create_writes req else []

/-- The writes the update handler issues on a POST. -/
def update_post_writes (r0 : Romaneio) (req : SubmitRequest) :
    List (Option Romaneio → Option Romaneio) :=
  if update_validation_ok req then update_writes r0 req else []

/-! ## Concrete inputs used by witnesses and counterexamples -/

/-- A persisted DETALHADO receipt with one item that has one unit. -/
def c3_r0 : Romaneio :=
  { numero_romaneio := "100", cliente_id := 1, modalidade := "DETALHADO"
    tipo_romaneio := "NORMAL", data_month := 1, data_year := 2024
    desconto := 0, m3_total := 5, valor_bruto := 50, valor_total := 50
    itens := [{ quantidade_m3_total := 0, preco_unitario := 10
                unidades := [{ volume := 5 }], m3_total := 5, valor_total := 50 }] }

/-- An update submission for `c3_r0` whose only unit row is marked for
deletion: every bound form is valid, so all three update-side validation
layers pass. -/
def c3_req : SubmitRequest :=
  { form_valid := true, modalidade := "DETALHADO", numero_romaneio := "100"
    cliente_id := 1, tipo_romaneio := "NORMAL", data_month := 1
    data_year := 2024, desconto := 0
    item_forms := [{ valid := true, delete := false, quantidade_m3_total := 0
                     preco_unitario := 10, instance_unidades := [{ volume := 5 }] }]
    unidade_formsets := [{ forms := [{ valid := true, delete := true, volume := 5 }]
                           non_form_errors := [] }] }

/-- A valid DETALHADO create submission: one item row with two unit rows
of volumes 3 and 4 at unit price 10. -/
def w_req : SubmitRequest :=
  { form_valid := true, modalidade := "DETALHADO", numero_romaneio := "200"
    cliente_id := 2, tipo_romaneio := "COM_FRETE", data_month := 3
    data_year := 2024, desconto := 1
    item_forms := [{ valid := true, delete := false, quantidade_m3_total := 0
                     preco_unitario := 10, instance_unidades := [] }]
    unidade_formsets := [{ forms := [{ valid := true, delete := false, volume := 3 },
                                     { valid := true, delete := false, volume := 4 }]
                           non_form_errors := [] }] }

/-- A DETALHADO create submission whose only item row has zero unit rows. -/
def w_req_nounits : SubmitRequest :=
  { form_valid := true, modalidade := "DETALHADO", numero_romaneio := "201"
    cliente_id := 2, tipo_romaneio := "NORMAL", data_month := 3
    data_year := 2024, desconto := 0
    item_forms := [{ valid := true, delete := false, quantidade_m3_total := 0
                     preco_unitario := 10, instance_unidades := [] }]
    unidade_formsets := [{ forms := [], non_form_errors := [] }] }

/-- A submission whose main form failed validation. -/
def w_req_invalid : SubmitRequest :=
  { form_valid := false, modalidade := "SIMPLES", numero_romaneio := ""
    cliente_id := 0, tipo_romaneio := "NORMAL", data_month := 1
    data_year := 2024, desconto := 0, item_forms := [], unidade_formsets := [] }

/-- A wood-type table with a single row. -/
def w_db_madeira : List TipoMadeira :=
  [{ id := 7, nome := "Ipe", preco_normal := 100, preco_com_frete := 120, ativo := true }]

/-- A one-receipt table for exercising the list filter. -/
def w_db_romaneio : List Romaneio :=
  [{ c3_r0 with data_month := 3, data_year := 2024 }]

/-! ## Payment form (`PagamentoForm.clean_valor`) -/

/-- Embeds `PagamentoForm.clean_valor`: a missing value or one not strictly
positive raises a `ValidationError`; otherwise the cleaned value is
returned unchanged. -/
def clean_valor (valor : Option Rat) : Except String Rat :=
  match valor with
  | none => .error "Informe um valor de pagamento válido (maior que zero)."
  | some v =>
      if v ≤ 0 then
        .error "Informe um valor de pagamento válido (maior que zero)."
      else
        .ok v

/-! ## Helper lemmas -/

theorem mem_of_ite_filter {r : Romaneio} {l : List Romaneio} {c : Bool}
    {q : Romaneio → Bool} (h : r ∈ if c then l.filter q else l) : r ∈ l := by
  split at h
  · exact List.mem_of_mem_filter h
  · exact h

theorem update_post_eq (r0 : Romaneio) (req : SubmitRequest) :
    update_post r0 req =
      if update_validation_ok req then .saved (update_full_save r0 req)
      else .rendered r0 req.unidade_formsets := by
  cases hf : req.form_valid <;> cases hi : req.item_forms.all (·.valid) <;>
    cases hd : is_detalhado req <;>
    cases hu : req.unidade_formsets.all UnidadeFormSet.is_valid <;>
    simp [update_post, update_validation_ok, hf, hi, hd, hu]

theorem create_post_eq (req : SubmitRequest) :
    create_post req =
      if create_validation_ok req then .saved (create_full_save req)
      else .rendered (create_checked_formsets req) := by
  cases hf : req.form_valid <;> cases hi : req.item_forms.all (·.valid) <;>
    cases hd : is_detalhado req <;>
    cases hu : req.unidade_formsets.all UnidadeFormSet.is_valid <;>
    cases hv : (validate_detalhado_requires_units true req.unidade_formsets).2 <;>
    simp [create_post, create_validation_ok, create_checked_formsets, hf, hi, hd, hu, hv]

theorem recalc_modalidade (r : Romaneio) :
    (recalcular_totais_apos_salvar r).modalidade = r.modalidade := rfl

theorem recalc_itens (r : Romaneio) :
    (recalcular_totais_apos_salvar r).itens =
      r.itens.map (Item.atualizar_totais r.modalidade) := rfl

theorem atualizar_totais_item_spec (modalidade : String) (x : Item) :
    ((modalidade = "DETALHADO" →
        (Item.atualizar_totais modalidade x).m3_total =
          (((Item.atualizar_totais modalidade x).unidades).map (·.volume)).sum) ∧
      (modalidade ≠ "DETALHADO" →
        (Item.atualizar_totais modalidade x).m3_total =
          (Item.atualizar_totais modalidade x).quantidade_m3_total)) := by
  constructor <;> intro h <;> simp [Item.atualizar_totais, h]

theorem run_writes_spec (fails : Nat → Bool) :
    ∀ (ws : List (Option Romaneio → Option Romaneio)) (cur : Option Romaneio) (i : Nat),
      run_writes fails cur i ws = none ∨
      run_writes fails cur i ws = some (ws.foldl (fun a w => w a) cur) := by
  intro ws
  induction ws with
  | nil => intro cur i; right; rfl
  | cons w ws ih =>
      intro cur i
      by_cases h : fails i = true
      · left; simp [run_writes, h]
      · have h2 := ih (w cur) (i + 1)
        simpa [run_writes, h, List.foldl_cons] using h2

theorem run_atomic_spec (db : Option Romaneio)
    (ws : List (Option Romaneio → Option Romaneio)) (fails : Nat → Bool) :
    run_atomic db ws fails = db ∨
    run_atomic db ws fails = ws.foldl (fun a w => w a) db := by
  rcases run_writes_spec fails ws db 0 with h | h <;> simp [run_atomic, h]

theorem create_writes_foldl (req : SubmitRequest) (db : Option Romaneio) :
    (create_writes req).foldl (fun a w => w a) db = some (create_full_save req) := rfl

theorem update_writes_foldl (r0 : Romaneio) (req : SubmitRequest) (db : Option Romaneio) :
    (update_writes r0 req).foldl (fun a w => w a) db = some (update_full_save r0 req) := rfl

theorem headI_mem_self {α : Type} [Inhabited α] {l : List α} (h : l ≠ []) :
    l.headI ∈ l := by
  cases l with
  | nil => exact absurd rfl h
  | cons a t => exact List.mem_cons_self a t

theorem saved_is_recalc {req : SubmitRequest} {r0 r : Romaneio}
    (h : create_post req = .saved r ∨ update_post r0 req = .saved r) :
    ∃ base, r = recalcular_totais_apos_salvar base := by
  rcases h with h | h
  · rw [create_post_eq] at h
    by_cases hv : create_validation_ok req = true
    · rw [if_pos hv] at h
      injection h with h2
      exact ⟨_, h2.symm⟩
    · rw [if_neg hv] at h
      exact CreatePostResult.noConfusion h
  · rw [update_post_eq] at h
    by_cases hv : update_validation_ok req = true
    · rw [if_pos hv] at h
      injection h with h2
      exact ⟨_, h2.symm⟩
    · rw [if_neg hv] at h
      exact UpdatePostResult.noConfusion h

/-! ## Claims -/

/-- C1: after any save of a receipt (a successful create or update POST),
every item of that receipt has, persisted, the sum of the volumes of its
non-deleted units as its total when the receipt's mode is DETALHADO, and
the volume entered directly on the item when the mode is SIMPLES. -/
theorem c1_item_totals_after_save (req : SubmitRequest) (r0 r : Romaneio)
    (h : create_post req = .saved r ∨ update_post r0 req = .saved r) :
    ∀ it ∈ r.itens,
      (r.modalidade = "DETALHADO" →
        it.m3_total = (it.unidades.map (·.volume)).sum) ∧
      (r.modalidade = "SIMPLES" →
        it.m3_total = it.quantidade_m3_total) := by
  obtain ⟨base, rfl⟩ := saved_is_recalc h
  intro it hit
  rw [recalc_itens] at hit
  rw [recalc_modalidade]
  rcases List.mem_map.mp hit with ⟨x, _, rfl⟩
  constructor
  · intro hmod
    rw [hmod]
    exact (atualizar_totais_item_spec "DETALHADO" x).1 rfl
  · intro hmod
    rw [hmod]
    exact (atualizar_totais_item_spec "SIMPLES" x).2 (by decide)

/-- Witness for C1: the valid DETALHADO create `w_req` is saved, and its
first persisted item's total is the sum of its unit volumes. -/
theorem c1_item_totals_after_save_witness :
    ((create_full_save w_req).modalidade = "DETALHADO" →
      ((create_full_save w_req).itens.headI).m3_total =
        ((((create_full_save w_req).itens.headI).unidades).map (·.volume)).sum) ∧
    ((create_full_save w_req).modalidade = "SIMPLES" →
      ((create_full_save w_req).itens.headI).m3_total =
        ((create_full_save w_req).itens.headI).quantidade_m3_total) :=
  c1_item_totals_after_save w_req c3_r0 (create_full_save w_req)
    (Or.inl (by rw [create_post_eq,
      if_pos (show create_validation_ok w_req = true by decide)]))
    ((create_full_save w_req).itens.headI)
    (headI_mem_self (by
      simp [create_full_save, recalcular_totais_apos_salvar,
        Romaneio.atualizar_totais, header_romaneio, save_unidades_for_itens,
        save_itens_create, w_req, List.enum, List.enumFrom]))

/-- C2: after every successful create or update POST, the receipt's
persisted aggregate volume and monetary totals equal the sums of the
corresponding totals over its current items (the final total net of the
receipt's discount). -/
theorem c2_aggregates_after_save (req : SubmitRequest) (r0 r : Romaneio)
    (h : create_post req = .saved r ∨ update_post r0 req = .saved r) :
    r.m3_total = (r.itens.map (·.m3_total)).sum ∧
    r.valor_bruto = (r.itens.map (·.valor_total)).sum ∧
    r.valor_total = (r.itens.map (·.valor_total)).sum - r.desconto := by
  obtain ⟨base, rfl⟩ := saved_is_recalc h
  exact ⟨rfl, rfl, rfl⟩

/-- Witness for C2: the aggregates of the receipt saved by `w_req`. -/
theorem c2_aggregates_after_save_witness :
    (create_full_save w_req).m3_total =
      ((create_full_save w_req).itens.map (·.m3_total)).sum ∧
    (create_full_save w_req).valor_bruto =
      ((create_full_save w_req).itens.map (·.valor_total)).sum ∧
    (create_full_save w_req).valor_total =
      ((create_full_save w_req).itens.map (·.valor_total)).sum -
        (create_full_save w_req).desconto :=
  c2_aggregates_after_save w_req c3_r0 (create_full_save w_req)
    (Or.inl (by rw [create_post_eq,
      if_pos (show create_validation_ok w_req = true by decide)]))

/-- C3 (the code evaluated at the failing input): an update POST on a
DETALHADO receipt whose submission marks the only unit of its only item as
deleted passes every update-side validation layer — the update view never
invokes `_validate_detalhado_requires_units` — so it is saved, and the item
is persisted with zero units and total 0, instead of being rejected. -/
theorem c3_update_delete_all_units_accepted :
    update_post c3_r0 c3_req = .saved (update_full_save c3_r0 c3_req) ∧
    (update_full_save c3_r0 c3_req).itens.map (·.unidades) = [[]] ∧
    (update_full_save c3_r0 c3_req).m3_total = 0 := by
  refine ⟨?_, ?_, ?_⟩
  · rw [update_post_eq, if_pos (show update_validation_ok c3_req = true by decide)]
  · simp [update_full_save, recalcular_totais_apos_salvar, Romaneio.atualizar_totais,
      update_header, save_unidades_for_itens, save_itens_update, Item.atualizar_totais,
      c3_r0, c3_req, UnidadeFormSet.is_valid, List.enum, List.enumFrom]
  · simp [update_full_save, recalcular_totais_apos_salvar, Romaneio.atualizar_totais,
      update_header, save_unidades_for_itens, save_itens_update, Item.atualizar_totais,
      c3_r0, c3_req, UnidadeFormSet.is_valid, List.enum, List.enumFrom]

/-- C4: in a DETALHADO create, an item row with zero valid non-deleted
unit rows makes the POST re-render with the row-level message on that
row's unit formset; the same shape with at least one valid unit row per
item row is accepted; and a non-DETALHADO create neither lets unit rows
affect validation nor persists any unit. -/
theorem c4_create_unit_row_validation :
    (∀ (req : SubmitRequest) (i : Nat) (uf : UnidadeFormSet),
      is_detalhado req = true →
      req.unidade_formsets.all UnidadeFormSet.is_valid = true →
      req.unidade_formsets[i]? = some uf →
      valid_units uf = 0 →
      create_post req = .rendered (create_checked_formsets req) ∧
      requires_units_msg ∈
        ((create_checked_formsets req).getD i default).non_form_errors) ∧
    (∀ req : SubmitRequest,
      is_detalhado req = true →
      req.item_forms.all (·.valid) = true →
      req.unidade_formsets.all UnidadeFormSet.is_valid = true →
      (∀ uf ∈ req.unidade_formsets, 0 < valid_units uf) →
      create_post req = .saved (create_full_save req)) ∧
    (∀ req : SubmitRequest, req.modalidade ≠ "DETALHADO" →
      ((create_post req = .saved (create_full_save req)) ↔
        (req.form_valid && req.item_forms.all (·.valid)) = true) ∧
      (∀ it ∈ (create_full_save req).itens, it.unidades = [])) := by
  refine ⟨?_, ?_, ?_⟩
  · intro req i uf hd hall hget hcount
    have hmem : uf ∈ req.unidade_formsets := List.getElem?_mem hget
    have hba : req.unidade_formsets.all (fun u => valid_units u != 0) = false := by
      cases hb : req.unidade_formsets.all (fun u => valid_units u != 0) with
      | false => rfl
      | true =>
          have h2 := List.all_eq_true.mp hb uf hmem
          simp [hcount] at h2
    have hv2 : (validate_detalhado_requires_units true req.unidade_formsets).2 = false := by
      simpa [validate_detalhado_requires_units] using hba
    have hok : create_validation_ok req = false := by
      simp [create_validation_ok, hd, hv2]
    constructor
    · rw [create_post_eq, if_neg (by simp [hok])]
    · simp only [create_checked_formsets, hd, if_true, hall,
        validate_detalhado_requires_units, Bool.not_true, Bool.false_eq_true,
        if_false]
      rw [List.getD_eq_getElem?_getD, List.getElem?_map, hget]
      simp [hcount]
  · intro req hd hitems hall hpos
    have hv2 : (validate_detalhado_requires_units true req.unidade_formsets).2 = true := by
      simp only [validate_detalhado_requires_units, Bool.not_true,
        Bool.false_eq_true, if_false]
      rw [List.all_eq_true]
      intro u hu
      simpa using Nat.pos_iff_ne_zero.mp (hpos u hu)
    have hfv : req.form_valid = true := by
      have h2 := hd
      simp [is_detalhado] at h2
      exact h2.1
    have hok : create_validation_ok req = true := by
      simp [create_validation_ok, hd, hfv, hitems, hall, hv2]
    rw [create_post_eq, if_pos hok]
  · intro req hmod
    have hd : is_detalhado req = false := by
      simp [is_detalhado, hmod]
    constructor
    · constructor
      · intro hs
        rw [create_post_eq] at hs
        by_cases hok : create_validation_ok req = true
        · have h3 : create_validation_ok req =
              (req.form_valid && req.item_forms.all (·.valid)) := by
            simp [create_validation_ok, hd]
          rw [h3] at hok
          exact hok
        · rw [if_neg hok] at hs
          exact CreatePostResult.noConfusion hs
      · intro hfv
        have hok : create_validation_ok req = true := by
          simp [create_validation_ok, hd, hfv]
        rw [create_post_eq, if_pos hok]
    · intro it hit
      have hskip : (req.modalidade != "DETALHADO") = true := by simp [hmod]
      rw [create_full_save, recalc_itens] at hit
      simp only [save_unidades_for_itens, hskip, if_true, save_itens_create] at hit
      rcases List.mem_map.mp hit with ⟨x, hx, rfl⟩
      rcases List.mem_map.mp hx with ⟨f, _, rfl⟩
      simp [Item.atualizar_totais]

/-- Witness for C4: the no-unit DETALHADO create `w_req_nounits` is
re-rendered with the row-level message on row 0, and the one-unit-per-item
create `w_req` is saved. -/
theorem c4_create_unit_row_validation_witness :
    (create_post w_req_nounits = .rendered (create_checked_formsets w_req_nounits) ∧
      requires_units_msg ∈
        ((create_checked_formsets w_req_nounits).getD 0 default).non_form_errors) ∧
    create_post w_req = .saved (create_full_save w_req) :=
  ⟨c4_create_unit_row_validation.1 w_req_nounits 0
      { forms := [], non_form_errors := [] }
      (by decide) (by decide) (by decide) (by decide),
   c4_create_unit_row_validation.2.1 w_req (by decide) (by decide) (by decide)
      (by decide)⟩

/-- C5: both POST handlers run their writes (header, items, units,
recalculation) inside one all-or-nothing transaction executed once: under
every failure pattern the persisted state is either exactly the original
(abort) or exactly the complete post-save state with freshly recalculated
aggregates; no intermediate state is ever committed. -/
theorem c5_atomic_transaction (req : SubmitRequest) (r0 : Romaneio)
    (db : Option Romaneio) (fails : Nat → Bool) :
    (run_atomic db (create_post_writes req) fails = db ∨
      run_atomic db (create_post_writes req) fails = some (create_full_save req)) ∧
    (run_atomic db (update_post_writes r0 req) fails = db ∨
      run_atomic db (update_post_writes r0 req) fails = some (update_full_save r0 req)) := by
  constructor
  · unfold create_post_writes
    split
    · rcases run_atomic_spec db (create_writes req) fails with h | h
      · exact Or.inl h
      · exact Or.inr (by rw [h, create_writes_foldl])
    · exact Or.inl rfl
  · unfold update_post_writes
    split
    · rcases run_atomic_spec db (update_writes r0 req) fails with h | h
      · exact Or.inl h
      · exact Or.inr (by rw [h, update_writes_foldl])
    · exact Or.inl rfl

/-- C6: no write to persisted state happens before the receipt form, the
item formset and (in DETALHADO mode) every unit formset validated: a
submission failing validation re-renders the form, leaves the update
instance unchanged, and issues an empty write list. -/
theorem c6_no_write_before_validation :
    (∀ req : SubmitRequest, create_validation_ok req = false →
      create_post req = .rendered (create_checked_formsets req) ∧
      create_post_writes req = []) ∧
    (∀ (r0 : Romaneio) (req : SubmitRequest), update_validation_ok req = false →
      update_post r0 req = .rendered r0 req.unidade_formsets ∧
      update_post_writes r0 req = []) := by
  constructor
  · intro req h
    constructor
    · rw [create_post_eq, if_neg (by simp [h])]
    · simp [create_post_writes, h]
  · intro r0 req h
    constructor
    · rw [update_post_eq, if_neg (by simp [h])]
    · simp [update_post_writes, h]

/-- Witness for C6: an invalid-form submission re-renders both handlers and
issues no write. -/
theorem c6_no_write_before_validation_witness :
    (create_post w_req_invalid = .rendered (create_checked_formsets w_req_invalid) ∧
      create_post_writes w_req_invalid = []) ∧
    (update_post c3_r0 w_req_invalid = .rendered c3_r0 w_req_invalid.unidade_formsets ∧
      update_post_writes c3_r0 w_req_invalid = []) :=
  ⟨c6_no_write_before_validation.1 w_req_invalid (by decide),
   c6_no_write_before_validation.2 c3_r0 w_req_invalid (by decide)⟩

/-- C10: for every payment form submission, a missing or non-positive
payment value is rejected by `clean_valor` with a validation error, and
any strictly positive value is accepted and returned unchanged. -/
theorem c10_clean_valor_spec (v : Rat) :
    (clean_valor none).isOk = false ∧
    (v ≤ 0 → (clean_valor (some v)).isOk = false) ∧
    (0 < v → clean_valor (some v) = .ok v) := by
  refine ⟨rfl, ?_, ?_⟩
  · intro h; simp [clean_valor, h, Except.isOk, Except.toBool]
  · intro h; simp [clean_valor, not_le.mpr h]

/-- Witness for C10 at the values 1 (accepted) and -1 (rejected). -/
theorem c10_clean_valor_spec_witness :
    clean_valor (some 1) = .ok 1 ∧ (clean_valor (some (-1))).isOk = false :=
  ⟨(c10_clean_valor_spec 1).2.2 (by norm_num),
   (c10_clean_valor_spec (-1)).2.1 (by norm_num)⟩

/-- C7: the wood-price endpoint returns 404 with a structured JSON error
when the id matches no wood type, success and the category-matching price
when it does, and 500 with a structured JSON error on any other failure
(an unparseable id). -/
theorem c7_get_preco_madeira_spec (db : List TipoMadeira) (s : String)
    (n : Int) (tipo : String) :
    (to_int_py s = some n → db.find? (fun tm => (tm.id : Int) == n) = none →
        get_preco_madeira db (some s) tipo =
          { success := false, preco := none,
            error := some "Tipo de madeira não encontrado", status := 404 }) ∧
    (∀ tm, to_int_py s = some n → db.find? (fun t => (t.id : Int) == n) = some tm →
        get_preco_madeira db (some s) tipo =
          { success := true, preco := some (tm.get_preco tipo),
            error := none, status := 200 }) ∧
    (to_int_py s = none →
        (get_preco_madeira db (some s) tipo).success = false ∧
        (get_preco_madeira db (some s) tipo).status = 500 ∧
        ((get_preco_madeira db (some s) tipo).error).isSome = true) := by
  refine ⟨?_, ?_, ?_⟩
  · intro h1 h2; simp [get_preco_madeira, h1, h2]
  · intro tm h1 h2; simp [get_preco_madeira, h1, h2]
  · intro h1; simp [get_preco_madeira, h1]

/-- Witness for C7: id 7 exists (price with freight 120), id "abc" is an
unparseable failure (500). -/
theorem c7_get_preco_madeira_spec_witness :
    get_preco_madeira w_db_madeira (some "7") "COM_FRETE" =
      { success := true, preco := some 120, error := none, status := 200 } ∧
    (get_preco_madeira w_db_madeira (some "abc") "NORMAL").status = 500 := by
  constructor
  · exact (c7_get_preco_madeira_spec w_db_madeira "7" 7 "COM_FRETE").2.1
      { id := 7, nome := "Ipe", preco_normal := 100, preco_com_frete := 120, ativo := true }
      (by decide) (by decide)
  · exact ((c7_get_preco_madeira_spec w_db_madeira "abc" 0 "NORMAL").2.2 (by decide)).2.1

/-- C8: when both `mes` and `ano` are supplied (and parse), the receipt
list contains only receipts with exactly that month and year; when both
are omitted the list is the current month/year's. -/
theorem c8_list_month_year_filter :
    (∀ (db : List Romaneio) (p : ListParams) (nm ny : Nat) (m a : Int)
        (r : Romaneio),
      truthy p.mes = true → truthy p.ano = true →
      to_int_py (p.mes.getD "") = some m → to_int_py (p.ano.getD "") = some a →
      r ∈ get_queryset db p nm ny →
      (r.data_month : Int) = m ∧ (r.data_year : Int) = a) ∧
    (∀ (db : List Romaneio) (nm ny : Nat),
      get_queryset db ⟨none, none, none, none, none⟩ nm ny =
        db.filter (fun r => (r.data_month == nm) && (r.data_year == ny))) := by
  constructor
  · intro db p nm ny m a r hm ha hpm hpa hr
    simp only [get_queryset, hm, ha, Bool.and_self, if_true, hpm, hpa] at hr
    have h1 := mem_of_ite_filter (mem_of_ite_filter (mem_of_ite_filter hr))
    have h2 := (List.mem_filter.mp h1).2
    simpa using h2
  · intro db nm ny
    simp [get_queryset, truthy]

/-- Witness for C8: a March-2024 receipt survives the mes=3, ano=2024
filter with matching month and year. -/
theorem c8_list_month_year_filter_witness :
    (((⟨"100", 1, "DETALHADO", "NORMAL", 3, 2024, 0, 5, 50, 50,
        [{ quantidade_m3_total := 0, preco_unitario := 10,
           unidades := [{ volume := 5 }], m3_total := 5, valor_total := 50 }]⟩ :
        Romaneio).data_month : Int) = 3 ∧
      (((⟨"100", 1, "DETALHADO", "NORMAL", 3, 2024, 0, 5, 50, 50,
        [{ quantidade_m3_total := 0, preco_unitario := 10,
           unidades := [{ volume := 5 }], m3_total := 5, valor_total := 50 }]⟩ :
        Romaneio)).data_year : Int) = 2024) :=
  c8_list_month_year_filter.1 w_db_romaneio
    ⟨some "3", some "2024", none, none, none⟩ 5 2020 3 2024 _
    (by decide) (by decide) (by decide) (by decide) (by decide)

/-- C9: when `mes` and `ano` are both present (non-empty) but one of them
fails integer parsing, the exception is swallowed and no month or year
filter at all is applied: the full table comes back. -/
theorem c9_unparseable_period_no_filter (db : List Romaneio) (nm ny : Nat)
    (sm sa : String) :
    (sm == "") = false → (sa == "") = false →
    (to_int_py sm = none ∨ to_int_py sa = none) →
    get_queryset db ⟨some sm, some sa, none, none, none⟩ nm ny = db := by
  intro h1 h2 h3
  rcases h3 with h3 | h3
  · cases h4 : to_int_py sa <;> simp [get_queryset, truthy, h1, h2, h3, h4]
  · cases h4 : to_int_py sm <;> simp [get_queryset, truthy, h1, h2, h3, h4]

/-- Witness for C9: mes="abc", ano="2024" returns the whole table. -/
theorem c9_unparseable_period_no_filter_witness :
    get_queryset w_db_romaneio ⟨some "abc", some "2024", none, none, none⟩ 7 1999 =
      w_db_romaneio :=
  c9_unparseable_period_no_filter w_db_romaneio 7 1999 "abc" "2024"
    (by decide) (by decide) (Or.inl (by decide))

end MadereiraJD
